import Mathlib

/-!
Shallow embedding of the Roblox clothing editor (`src/app.py`).

The repository is a Streamlit app whose core is an embedded HTML/JS editor:
two Fabric.js canvases (shirt, pants) hold transformable image layers over
non-interactive guide annotations, and a Three.js body rig samples fixed
pixel regions of the guide-hidden rasters into per-face 128x128 textures.
A small PIL pipeline composites AI output (logo / pattern modes).

Modelling conventions:
* pixels are RGBA quadruples of naturals (byte channels 0..255);
* a raster is a total function from pixel coordinates to colors;
* Fabric objects are a list held bottom-to-top; guide annotations carry an
  opaque paint function (their exact text/stroke rendering is irrelevant to
  every property proved here: they are hidden during rasterization);
* browser rendering of an image layer is modelled by nearest-neighbour
  inverse-transform sampling over rationals; both sides of every theorem
  about rasters use the same renderer, so no property depends on the
  particular filter;
* JS `alert` error reports are modelled as `Except` errors
  (`NoSelectionError`, `GuardedObjectError` of the spec's taxonomy);
* PIL's `resize` (Lanczos, floating point) is an abstract parameter; the
  integer blend of `Image.paste` with an RGBA mask follows PIL's
  `MULDIV255`/`BLEND` macros, and `Image.alpha_composite` is Porter-Duff
  `over` computed over rationals.
-/

namespace App

/-- RGBA pixel color; channels are naturals in 0..255 as in the canvas and
PIL byte model. -/
structure Color where
  r : ℕ
  g : ℕ
  b : ℕ
  a : ℕ
deriving DecidableEq, Repr

/-- Opaque white, the canvas background color `#ffffff` and the clear color
used before every per-face copy. -/
def white : Color := ⟨255, 255, 255, 255⟩

/-- The startup fill for pants-sourced face canvases: `ctx.fillStyle = '#3d5a80'`. -/
def denimBlue : Color := ⟨61, 90, 128, 255⟩

/-- A rasterized pixel surface: total function from coordinates to colors. -/
abbrev Raster := ℕ → ℕ → Color

/-- A per-face 128x128 texture buffer (`faceCanvases[part][face]`). -/
abbrev Buffer := ℕ → ℕ → Color

/-- `const CANVAS_W = 585`. -/
def CANVAS_W : ℕ := 585

/-- `const CANVAS_H = 600` (increased to show arm/leg zones fully). -/
def CANVAS_H : ℕ := 600

/-- `ROBLOX_WIDTH = 585`, the AI-pipeline garment sheet width. -/
def ROBLOX_WIDTH : ℕ := 585

/-- `ROBLOX_HEIGHT = 559`, the AI-pipeline garment sheet height. -/
def ROBLOX_HEIGHT : ℕ := 559

/-- `LOGO_X = 231`. -/
def LOGO_X : ℕ := 231

/-- `LOGO_Y = 74`. -/
def LOGO_Y : ℕ := 74

/-- `LOGO_SIZE = 128`. -/
def LOGO_SIZE : ℕ := 128

/-- `PATTERN_SIZE = 150`. -/
def PATTERN_SIZE : ℕ := 150

/-- A rectangle in texture-sheet pixel space. -/
structure Rect where
  x : ℕ
  y : ℕ
  w : ℕ
  h : ℕ
deriving DecidableEq, Repr

/-- A drop-zone guide declaration (`DROP_ZONES` entries). -/
structure Zone where
  x : ℕ
  y : ℕ
  w : ℕ
  h : ℕ
  color : String
  label : String
  labelY : Int
deriving DecidableEq, Repr

/-- Keys of the `DROP_ZONES` table. -/
inductive DropZoneId where
  | torso_front
  | torso_back
  | right_arm
  | left_arm
deriving DecidableEq, Repr

/-- The `DROP_ZONES` table of `src/app.py`. -/
def DROP_ZONES : DropZoneId → Zone
  | .torso_front => ⟨128, 128, 128, 128, "#4CAF50", "FRONT", -20⟩
  | .torso_back  => ⟨327, 128, 128, 128, "#4CAF50", "BACK", -20⟩
  | .right_arm   => ⟨0, 323, 192, 236, "#2196F3", "R. ARM/LEG", -20⟩
  | .left_arm    => ⟨393, 323, 192, 236, "#FF9800", "L. ARM/LEG", -20⟩

/-- Enumeration order of the `DROP_ZONES` object keys. -/
def dropZoneIds : List DropZoneId :=
  [.torso_front, .torso_back, .right_arm, .left_arm]

/-- Keys of the `FIT_ZONES` table. -/
inductive FitZoneId where
  | front
  | back
  | r_arm
  | l_arm
deriving DecidableEq, Repr

/-- The `FIT_ZONES` table of `src/app.py`. -/
def FIT_ZONES : FitZoneId → Rect
  | .front => ⟨128, 128, 128, 128⟩
  | .back  => ⟨327, 128, 128, 128⟩
  | .r_arm => ⟨64, 388, 64, 128⟩
  | .l_arm => ⟨455, 388, 64, 128⟩

/-- `textureSource` of a body part: `'shirt' | 'pants' | 'none'`. -/
inductive TextureSource where
  | shirt
  | pants
  | none
deriving DecidableEq, Repr

/-- Keys of the `BODY_PARTS` table. -/
inductive PartName where
  | torso
  | rightArm
  | leftArm
  | rightLeg
  | leftLeg
  | head
deriving DecidableEq, Repr

/-- The six canonical box face directions, `FACE_ORDER` elements. -/
inductive FaceName where
  | right
  | left
  | top
  | bottom
  | front
  | back
deriving DecidableEq, Repr

/-- `const FACE_ORDER = ['right','left','top','bottom','front','back']`. -/
def FACE_ORDER : List FaceName :=
  [.right, .left, .top, .bottom, .front, .back]

/-- One `BODY_PARTS` entry: box size, position, texture source and the
per-face source regions (`null` regions are `Option.none`). -/
structure BodyPart where
  size : ℚ × ℚ × ℚ
  position : ℚ × ℚ × ℚ
  textureSource : TextureSource
  faces : FaceName → Option Rect

/-- The `BODY_PARTS` table of `src/app.py`, transcribed field by field. -/
def BODY_PARTS : PartName → BodyPart
  | .torso =>
    { size := (2, 2, 1)
      position := (0, 0, 0)
      textureSource := .shirt
      faces := fun f => match f with
        | .front  => some ⟨128, 128, 128, 128⟩
        | .back   => some ⟨327, 128, 128, 128⟩
        | .right  => some ⟨64, 128, 64, 128⟩
        | .left   => some ⟨256, 128, 64, 128⟩
        | .top    => some ⟨128, 0, 128, 64⟩
        | .bottom => some ⟨128, 256, 128, 64⟩ }
  | .rightArm =>
    { size := (1, 2, 1)
      position := (-(3 / 2 : ℚ), 0, 0)
      textureSource := .shirt
      faces := fun f => match f with
        | .front  => some ⟨64, 388, 64, 128⟩
        | .back   => some ⟨129, 388, 64, 128⟩
        | .right  => some ⟨0, 388, 64, 128⟩
        | .left   => some ⟨128, 388, 64, 128⟩
        | .top    => some ⟨64, 323, 64, 64⟩
        | .bottom => some ⟨64, 516, 64, 43⟩ }
  | .leftArm =>
    { size := (1, 2, 1)
      position := ((3 / 2 : ℚ), 0, 0)
      textureSource := .shirt
      faces := fun f => match f with
        | .front  => some ⟨455, 388, 64, 128⟩
        | .back   => some ⟨520, 388, 64, 128⟩
        | .right  => some ⟨391, 388, 64, 128⟩
        | .left   => some ⟨519, 388, 64, 128⟩
        | .top    => some ⟨455, 323, 64, 64⟩
        | .bottom => some ⟨455, 516, 64, 43⟩ }
  | .rightLeg =>
    { size := (1, 2, 1)
      position := (-(1 / 2 : ℚ), -2, 0)
      textureSource := .pants
      faces := fun f => match f with
        | .front  => some ⟨64, 388, 64, 128⟩
        | .back   => some ⟨129, 388, 64, 128⟩
        | .right  => some ⟨0, 388, 64, 128⟩
        | .left   => some ⟨128, 388, 64, 128⟩
        | .top    => some ⟨64, 323, 64, 64⟩
        | .bottom => some ⟨64, 516, 64, 43⟩ }
  | .leftLeg =>
    { size := (1, 2, 1)
      position := ((1 / 2 : ℚ), -2, 0)
      textureSource := .pants
      faces := fun f => match f with
        | .front  => some ⟨455, 388, 64, 128⟩
        | .back   => some ⟨520, 388, 64, 128⟩
        | .right  => some ⟨391, 388, 64, 128⟩
        | .left   => some ⟨519, 388, 64, 128⟩
        | .top    => some ⟨455, 323, 64, 64⟩
        | .bottom => some ⟨455, 516, 64, 43⟩ }
  | .head =>
    { size := ((6 / 5 : ℚ), (6 / 5 : ℚ), (6 / 5 : ℚ))
      position := (0, (8 / 5 : ℚ), 0)
      textureSource := .none
      faces := fun _ => Option.none }

/-- Source-over compositing of a source pixel onto a destination pixel,
in integer byte arithmetic (exact when the source is opaque, which is the
only case any theorem below relies on). -/
def compositeOver (src dst : Color) : Color :=
  ⟨(src.r * src.a + dst.r * (255 - src.a)) / 255,
   (src.g * src.a + dst.g * (255 - src.a)) / 255,
   (src.b * src.a + dst.b * (255 - src.a)) / 255,
   (src.a * 255 + dst.a * (255 - src.a)) / 255⟩

/-- A user-placed image layer: the decoded image pixels, the natural image
dimensions, and the mutable Fabric transform fields the editor writes
(`left`, `top`, `scaleX`, `scaleY`). -/
structure Layer where
  img : ℕ → ℕ → Color
  width : ℚ
  height : ℚ
  left : ℚ
  top : ℚ
  scaleX : ℚ
  scaleY : ℚ

/-- Painting a layer onto a raster: inverse-transform nearest sampling of
the layer image over its axis-aligned footprint, source-over composited. -/
def drawLayer (l : Layer) (r : Raster) : Raster := fun px py =>
  let fx : ℚ := px
  let fy : ℚ := py
  if 0 < l.scaleX ∧ 0 < l.scaleY ∧
     l.left ≤ fx ∧ fx < l.left + l.width * l.scaleX ∧
     l.top ≤ fy ∧ fy < l.top + l.height * l.scaleY then
    let sx := ⌊(fx - l.left) / l.scaleX⌋.toNat
    let sy := ⌊(fy - l.top) / l.scaleY⌋.toNat
    compositeOver (l.img sx sy) (r px py)
  else r px py

/-- Payload of a Fabric object: either a guide annotation (text label or
dashed rectangle, carried as its paint function) or an image layer. -/
inductive Payload where
  | guidePaint (paint : Raster → Raster)
  | image (l : Layer)

/-- A Fabric object as the editor sees it: the `isGuide` custom flag, the
`visible` property toggled during clean rasterization, and the payload. -/
structure FabObj where
  isGuide : Bool
  visible : Bool
  payload : Payload

/-- Render one payload onto an accumulated raster. -/
def paintPayload : Payload → Raster → Raster
  | .guidePaint p, r => p r
  | .image l, r => drawLayer l r

/-- Render an object list bottom-to-top onto a base raster, skipping
invisible objects (Fabric skips objects with `visible: false`). -/
def renderObjs (objs : List FabObj) (r : Raster) : Raster :=
  objs.foldl (fun acc o => if o.visible then paintPayload o.payload acc else acc) r

/-- One Fabric.js canvas: background color (`#ffffff`), the optional ghost
template background image (absent until its asynchronous fetch resolves),
the object stack (bottom-to-top) and the current selection, modelled as the
index of the active object (`Option.none` when nothing is selected). -/
structure FabCanvas where
  bgColor : Color
  bgImage : Option (Raster → Raster)
  objects : List FabObj
  selection : Option ℕ

/-- The canvas background raster: the background color, with the ghost
template painted over it once loaded. -/
def bgRaster (c : FabCanvas) : Raster :=
  match c.bgImage with
  | Option.none => fun _ _ => c.bgColor
  | some p => p (fun _ _ => c.bgColor)

/-- Full rasterization of a canvas (`toCanvasElement`): background, then
every visible object bottom-to-top. -/
def rasterize (c : FabCanvas) : Raster :=
  renderObjs c.objects (bgRaster c)

/-- `obj.set('visible', b)` applied to guide objects only. -/
def setGuideVisibility (b : Bool) (o : FabObj) : FabObj :=
  if o.isGuide then { o with visible := b } else o

/-- `guides.forEach(obj => obj.set('visible', b))` over the whole stack. -/
def setGuidesVisible (b : Bool) (objs : List FabObj) : List FabObj :=
  objs.map (setGuideVisibility b)

/-- `getCleanCanvasElement`: hide all guides, discard the active object,
rasterize, then restore guide visibility and the selection. Returns the
raster together with the canvas state after restoration. -/
def getCleanCanvasElement (c : FabCanvas) : Raster × FabCanvas :=
  let hidden : FabCanvas :=
    { c with objects := setGuidesVisible false c.objects, selection := Option.none }
  let raster := rasterize hidden
  let restored : FabCanvas :=
    { hidden with
        objects := setGuidesVisible true hidden.objects
        selection := c.selection }
  (raster, restored)

/-- The guide-hidden raster of a canvas (first component of
`getCleanCanvasElement`). -/
def cleanRaster (c : FabCanvas) : Raster :=
  (getCleanCanvasElement c).1

/-- Every guide object on the canvas is visible (true of every state the
editor can reach: guides are created visible and `getCleanCanvasElement`
re-shows them before returning). -/
def allGuidesVisible (c : FabCanvas) : Prop :=
  ∀ o ∈ c.objects, o.isGuide = true → o.visible = true

/-- The canvas holds no image layers: every object is a guide. -/
def hasNoLayers (c : FabCanvas) : Prop :=
  ∀ o ∈ c.objects, o.isGuide = true

/-- `initCanvas`: white background, no background image yet (the ghost
template fetch is asynchronous), and per drop zone a text label followed by
a dashed rectangle, both non-selectable guides. The concrete pixel strokes
of the two annotation kinds are parameters. -/
def initCanvas (textPaint rectPaint : Zone → Raster → Raster) : FabCanvas :=
  { bgColor := white
    bgImage := Option.none
    objects := dropZoneIds.foldr
      (fun k acc =>
        ⟨true, true, Payload.guidePaint (textPaint (DROP_ZONES k))⟩ ::
        ⟨true, true, Payload.guidePaint (rectPaint (DROP_ZONES k))⟩ :: acc) []
    selection := Option.none }

/-- The editor's user-visible error taxonomy. -/
inductive EditErr where
  | noSelection
  | guardedObject
deriving DecidableEq, Repr

/-- The transform overwrite performed by `fitToZone`: position to the zone
corner, independent per-axis scale factors zone size over natural size. -/
def fitLayer (z : Rect) (l : Layer) : Layer :=
  { l with
      left := (z.x : ℚ)
      top := (z.y : ℚ)
      scaleX := (z.w : ℚ) / l.width
      scaleY := (z.h : ℚ) / l.height }

/-- `fitToZone(zoneName)` on one canvas: requires an active object
(otherwise `alert`, modelled as `NoSelectionError`, with no state change);
overwrites the selected layer's transform and brings it to the top of the
z-order. The guide branch is unreachable — guides are created with
`selectable: false` so they can never be the active object. -/
def fitToZone (c : FabCanvas) (zid : FitZoneId) : Except EditErr FabCanvas :=
  match c.selection with
  | Option.none => .error .noSelection
  | some i =>
    match c.objects.get? i with
    | Option.none => .error .noSelection
    | some o =>
      match o.payload with
      | .guidePaint _ => .ok c
      | .image l =>
        let o' : FabObj := { o with payload := .image (fitLayer (FIT_ZONES zid) l) }
        let objs := c.objects.eraseIdx i ++ [o']
        .ok { c with objects := objs, selection := some (objs.length - 1) }

/-- `deleteSelected()` on one canvas: `NoSelectionError` when nothing is
selected, `GuardedObjectError` when the selection is a guide, otherwise
removes exactly the selected object and clears the selection. -/
def deleteSelected (c : FabCanvas) : Except EditErr FabCanvas :=
  match c.selection with
  | Option.none => .error .noSelection
  | some i =>
    match c.objects.get? i with
    | Option.none => .error .noSelection
    | some o =>
      if o.isGuide then .error .guardedObject
      else .ok { c with objects := c.objects.eraseIdx i, selection := Option.none }

/-- The file-upload handler: place the decoded image at `left:128, top:128`,
`scaleToWidth(128)` (uniform scale `128 / naturalWidth`), append on top of
the z-order and make it the selection. -/
def addLayer (c : FabCanvas) (img : ℕ → ℕ → Color) (w h : ℚ) : FabCanvas :=
  let l : Layer :=
    { img := img, width := w, height := h, left := 128, top := 128,
      scaleX := 128 / w, scaleY := 128 / w }
  { c with
      objects := c.objects ++ [⟨false, true, Payload.image l⟩]
      selection := some c.objects.length }

/-- The two editing channels (`currentMode` values). -/
inductive Channel where
  | shirt
  | pants
deriving DecidableEq, Repr

/-- Process-wide editor state: current mode, the two persistent canvases,
the visibility of the two canvas containers, and the per-face texture
buffers (`faceCanvases` contents; `Option.none` where no region is declared
and the face renders with the shared skin material). -/
structure EditorState where
  currentMode : Channel
  shirtCanvas : FabCanvas
  pantsCanvas : FabCanvas
  shirtVisible : Bool
  pantsVisible : Bool
  faceBuffers : PartName → FaceName → Option Buffer

/-- `switchMode(newMode)`: early return when the mode is unchanged;
otherwise record the new mode and toggle which canvas container is visible
(the remaining body updates labels, legend and button classes only). The
canvases' object stacks and the face buffers are never touched and no
texture update is triggered. -/
def switchMode (s : EditorState) (next : Channel) : EditorState :=
  if next = s.currentMode then s
  else
    { s with
        currentMode := next
        shirtVisible := next == Channel.shirt
        pantsVisible := next == Channel.pants }

/-- The startup allocation of `faceCanvases`: one 128x128 buffer per
declared face region, filled `'#3d5a80'` for pants-sourced parts and
`'#ffffff'` otherwise; faces without a region get the skin material. -/
def initFaceBuffers : PartName → FaceName → Option Buffer := fun p f =>
  match (BODY_PARTS p).faces f with
  | Option.none => Option.none
  | some _ => some (fun _ _ =>
      if (BODY_PARTS p).textureSource = TextureSource.pants then denimBlue
      else white)

/-- Nearest resampling of a source-sheet sub-rectangle into the fixed
128x128 destination, modelling
`ctx.drawImage(source, rg.x, rg.y, rg.w, rg.h, 0, 0, 128, 128)`. -/
def resampleRegion (src : Raster) (rg : Rect) : Buffer := fun i j =>
  src (rg.x + i * rg.w / 128) (rg.y + j * rg.h / 128)

/-- One face update: clear the 128x128 buffer to opaque white
(`fillRect`), then draw the resampled region over it. -/
def drawFace (src : Raster) (rg : Rect) : Buffer := fun i j =>
  compositeOver (resampleRegion src rg i j) white

/-- Select the rasterized sheet named by a texture source. The `.none` case
is never consulted: the synchronizer skips such parts. -/
def sourceRaster (shirtEl pantsEl : Raster) : TextureSource → Raster
  | .shirt => shirtEl
  | .pants => pantsEl
  | .none => shirtEl

/-- The per-face body of the `updateAllTextures` loops: skip parts whose
`textureSource` is `'none'` (the head — early `return`), skip faces with no
declared region, skip faces with no allocated canvas (`if (!canvas) return`),
and otherwise refill with white and draw the resampled region from the
chosen sheet. -/
def syncFace (shirtEl pantsEl : Raster) (old : PartName → FaceName → Option Buffer)
    (p : PartName) (f : FaceName) : Option Buffer :=
  match (BODY_PARTS p).textureSource with
  | TextureSource.none => old p f
  | src =>
    match (BODY_PARTS p).faces f with
    | Option.none => old p f
    | some rg =>
      match old p f with
      | Option.none => Option.none
      | some _ => some (drawFace (sourceRaster shirtEl pantsEl src) rg)

/-- `updateAllTextures()`: take the clean (guide-hidden) raster of both
canvases, then update every face buffer per `syncFace`. The canvases are
left in their restored-after-rasterization states. -/
def updateAllTextures (s : EditorState) : EditorState :=
  let shirtPair := getCleanCanvasElement s.shirtCanvas
  let pantsPair := getCleanCanvasElement s.pantsCanvas
  { s with
      shirtCanvas := shirtPair.2
      pantsCanvas := pantsPair.2
      faceBuffers := syncFace shirtPair.1 pantsPair.1 s.faceBuffers }

/-- The canvas a texture source reads from (`sourceCanvas` selection in
`updateAllTextures`; the `.none` case is never consulted). -/
def sourceCanvas (s : EditorState) : TextureSource → FabCanvas
  | .shirt => s.shirtCanvas
  | .pants => s.pantsCanvas
  | .none => s.shirtCanvas

/-- The editor state right after startup: shirt mode active, both canvases
freshly initialized, pants container hidden, face buffers holding their
neutral fills. -/
def mkEditorState (textPaint rectPaint : Zone → Raster → Raster) : EditorState :=
  { currentMode := Channel.shirt
    shirtCanvas := initCanvas textPaint rectPaint
    pantsCanvas := initCanvas textPaint rectPaint
    shirtVisible := true
    pantsVisible := false
    faceBuffers := initFaceBuffers }

/-- A concrete startup state used by closed witnesses. The guide paint
functions are irrelevant to every property below (guides are hidden during
rasterization — proved in `claim_C4`), so a simple border stroke and an
identity label paint suffice as demonstration instances. -/
def initStateDemo : EditorState :=
  mkEditorState (fun _ r => r)
    (fun z r => fun x y =>
      if ((x = z.x ∨ x = z.x + z.w) ∧ z.y ≤ y ∧ y ≤ z.y + z.h) ∨
         ((y = z.y ∨ y = z.y + z.h) ∧ z.x ≤ x ∧ x ≤ z.x + z.w) then
        ⟨76, 175, 80, 255⟩
      else r x y)

/-- JS `String.prototype.trim()`: drop whitespace from both ends. JS
strings are modelled as character lists so that every operation is
structurally computable. -/
def jsTrim (s : List Char) : List Char :=
  ((s.dropWhile Char.isWhitespace).reverse.dropWhile Char.isWhitespace).reverse

/-- JS `String.prototype.toLowerCase()` (ASCII case mapping). -/
def jsToLower (s : List Char) : List Char :=
  s.map Char.toLower

/-- JS `String.prototype.endsWith(post)`. -/
def jsEndsWith (s post : List Char) : Bool :=
  s.drop (s.length - post.length) == post

/-- Default download filenames per channel. -/
def defaultDownloadName : Channel → List Char
  | .shirt => "roblox_shirt_design".toList
  | .pants => "roblox_pants_design".toList

/-- The filename resolution chain of `downloadTexture`: a cancelled prompt
(`null`) aborts; otherwise trim, fall back to the default when the trimmed
name is empty (JS `filename.trim() || defaultName`), and append `'.png'`
unless the lowercased name already ends with `'.png'`
(`filename.toLowerCase().endsWith('.png')`). -/
def resolveFilename (promptResult : Option (List Char)) (dft : List Char) :
    Option (List Char) :=
  match promptResult with
  | Option.none => Option.none
  | some raw =>
    let t := jsTrim raw
    let f := if t = [] then dft else t
    some (if jsEndsWith (jsToLower f) ".png".toList then f else f ++ ".png".toList)

/-- `downloadTexture(type)`: pick the named canvas, take its clean raster
(which restores the canvas), resolve the filename from the prompt result;
a cancelled prompt produces no file. Returns the optional saved file
(name, pixels) and the resulting editor state. -/
def downloadTexture (s : EditorState) (ty : Channel)
    (promptResult : Option (List Char)) :
    Option (List Char × Raster) × EditorState :=
  let canvas := match ty with
    | Channel.shirt => s.shirtCanvas
    | Channel.pants => s.pantsCanvas
  let pair := getCleanCanvasElement canvas
  let s' := match ty with
    | Channel.shirt => { s with shirtCanvas := pair.2 }
    | Channel.pants => { s with pantsCanvas := pair.2 }
  match resolveFilename promptResult (defaultDownloadName ty) with
  | Option.none => (Option.none, s')
  | some fn => (some (fn, pair.1), s')

/-- A decoded PIL image: dimensions plus pixel function. -/
structure PImg where
  w : ℕ
  h : ℕ
  pix : ℕ → ℕ → Color

/-- `Image.new("RGBA", (w, h), c)`. -/
def imgNew (w h : ℕ) (c : Color) : PImg :=
  ⟨w, h, fun _ _ => c⟩

/-- Sum of one channel over all pixels of an image. -/
def channelSum (img : PImg) (ch : Color → ℕ) : ℕ :=
  (List.range img.h).foldl
    (fun acc y => (List.range img.w).foldl (fun a x => a + ch (img.pix x y)) acc) 0

/-- `get_average_color`: convert to RGB (drop alpha), take the per-channel
mean over all pixels and truncate to an integer (`int(c)` on a nonnegative
float is the floor, here natural division). -/
def get_average_color (img : PImg) : ℕ × ℕ × ℕ :=
  let n := img.w * img.h
  (channelSum img Color.r / n, channelSum img Color.g / n, channelSum img Color.b / n)

/-- PIL's `MULDIV255` rounding macro from `ImagingUtils.h`. -/
def MULDIV255 (a b : ℕ) : ℕ :=
  let t := a * b + 128
  (t + t / 256) / 256

/-- PIL's `BLEND` macro: interpolate two byte values by a byte mask. -/
def blendChannel (m x y : ℕ) : ℕ :=
  MULDIV255 x (255 - m) + MULDIV255 y m

/-- `base.paste(im, (ox, oy), mask=im)` for an RGBA `im`: inside the pasted
footprint every band of the base is blended toward the image by the
image's own alpha; outside, the base is untouched. -/
def pasteMask (base im : PImg) (ox oy : ℕ) : PImg :=
  ⟨base.w, base.h, fun x y =>
    if ox ≤ x ∧ x < ox + im.w ∧ oy ≤ y ∧ y < oy + im.h then
      let s := im.pix (x - ox) (y - oy)
      let d := base.pix x y
      ⟨blendChannel s.a d.r s.r, blendChannel s.a d.g s.g,
       blendChannel s.a d.b s.b, blendChannel s.a d.a s.a⟩
    else base.pix x y⟩

/-- `create_logo_mode_image`: resize the AI image to the logo footprint,
fill a garment-size canvas with the logo's average color (opaque), and
paste the logo at `(LOGO_X, LOGO_Y)` masked by its own alpha. The Lanczos
`resize` is an abstract parameter (floating-point library resampling). -/
def create_logo_mode_image (resize : PImg → ℕ → ℕ → PImg) (ai : PImg) : PImg :=
  let logo := resize ai LOGO_SIZE LOGO_SIZE
  let avg := get_average_color logo
  let base := imgNew ROBLOX_WIDTH ROBLOX_HEIGHT ⟨avg.1, avg.2.1, avg.2.2, 255⟩
  pasteMask base logo LOGO_X LOGO_Y

/-- Porter-Duff `over` of an overlay pixel onto a base pixel with rational
alpha, truncated back to bytes — the mathematical content of PIL's
`Image.alpha_composite`. -/
def alpha_composite_px (d s : Color) : Color :=
  let sa : ℚ := (s.a : ℚ) / 255
  let da : ℚ := (d.a : ℚ) / 255
  let ao : ℚ := sa + da * (1 - sa)
  if ao = 0 then ⟨0, 0, 0, 0⟩
  else
    ⟨⌊((s.r : ℚ) * sa + (d.r : ℚ) * da * (1 - sa)) / ao⌋.toNat,
     ⌊((s.g : ℚ) * sa + (d.g : ℚ) * da * (1 - sa)) / ao⌋.toNat,
     ⌊((s.b : ℚ) * sa + (d.b : ℚ) * da * (1 - sa)) / ao⌋.toNat,
     ⌊ao * 255⌋.toNat⟩

/-- `Image.alpha_composite(base, overlay)` pixelwise. -/
def alpha_composite (base ov : PImg) : PImg :=
  ⟨base.w, base.h, fun x y => alpha_composite_px (base.pix x y) (ov.pix x y)⟩

/-- `apply_template_overlay`: open the cached template (`Option.none`
models the exception path — the whole body is wrapped in `try/except` and
failure returns the base unchanged), resize it to the garment dimensions
when they differ, and alpha-composite it over the base. -/
def apply_template_overlay (resize : PImg → ℕ → ℕ → PImg)
    (overlayFile : Option PImg) (base : PImg) : PImg :=
  match overlayFile with
  | Option.none => base
  | some ov =>
    let ov2 := if ov.w = ROBLOX_WIDTH ∧ ov.h = ROBLOX_HEIGHT then ov
               else resize ov ROBLOX_WIDTH ROBLOX_HEIGHT
    alpha_composite base ov2

/-- All four channels of a pixel are valid bytes (every decoded PIL pixel
satisfies this). -/
def colorBounded (c : Color) : Prop :=
  c.r ≤ 255 ∧ c.g ≤ 255 ∧ c.b ≤ 255 ∧ c.a ≤ 255

/-- A demonstration stand-in for PIL's Lanczos resampler, used only by
closed witnesses: it produces a constant image of the requested size. -/
def demoResize : PImg → ℕ → ℕ → PImg :=
  fun _ w h => imgNew w h ⟨10, 20, 30, 255⟩

/-- A demonstration 1x1 AI output image used by closed witnesses. -/
def demoAi : PImg := imgNew 1 1 white

/-- A concrete uploaded image used by closed witnesses. -/
def demoImg : ℕ → ℕ → Color := fun _ _ => ⟨200, 10, 10, 255⟩

/-- The demo startup shirt canvas with one uploaded 100x50 image. -/
def demoCanvasWithLayer : FabCanvas :=
  addLayer initStateDemo.shirtCanvas demoImg 100 50

/-- The layer `addLayer` creates for the demo upload. -/
def demoUploadLayer : Layer :=
  { img := demoImg, width := 100, height := 50, left := 128, top := 128,
    scaleX := 128 / 100, scaleY := 128 / 100 }

/-- The Fabric object wrapping the demo upload. -/
def demoUploadObj : FabObj := ⟨false, true, Payload.image demoUploadLayer⟩

/-! ## Helper lemmas -/

theorem setGuideVisibility_restore (o : FabObj) (h : o.isGuide = true → o.visible = true) :
    setGuideVisibility true (setGuideVisibility false o) = o := by
  cases o with
  | mk g v p =>
    cases g
    · simp [setGuideVisibility]
    · simp [setGuideVisibility]
      exact h rfl

theorem setGuidesVisible_restore (objs : List FabObj)
    (h : ∀ o ∈ objs, o.isGuide = true → o.visible = true) :
    setGuidesVisible true (setGuidesVisible false objs) = objs := by
  induction objs with
  | nil => rfl
  | cons o os ih =>
    have h1 := h o (List.mem_cons_self o os)
    have h2 : ∀ o' ∈ os, o'.isGuide = true → o'.visible = true :=
      fun o' ho' => h o' (List.mem_cons_of_mem o ho')
    simp only [setGuidesVisible, List.map_cons]
    rw [setGuideVisibility_restore o h1]
    have := ih h2
    simp only [setGuidesVisible] at this
    rw [this]

theorem setGuideVisibility_hide_again (o : FabObj) :
    setGuideVisibility false (setGuideVisibility true (setGuideVisibility false o)) =
    setGuideVisibility false o := by
  cases o with
  | mk g v p => cases g <;> simp [setGuideVisibility]

theorem setGuidesVisible_hide_again (objs : List FabObj) :
    setGuidesVisible false (setGuidesVisible true (setGuidesVisible false objs)) =
    setGuidesVisible false objs := by
  induction objs with
  | nil => rfl
  | cons o os ih =>
    simp only [setGuidesVisible, List.map_cons] at ih ⊢
    rw [setGuideVisibility_hide_again o, ih]

theorem getCleanCanvasElement_restore (c : FabCanvas) (h : allGuidesVisible c) :
    (getCleanCanvasElement c).2 = c := by
  cases c with
  | mk bg bgi objs sel =>
    simp only [getCleanCanvasElement, FabCanvas.mk.injEq, and_true, true_and]
    exact setGuidesVisible_restore objs h

theorem bgRaster_update (c : FabCanvas) (objs : List FabObj) (sel : Option ℕ) :
    bgRaster { c with objects := objs, selection := sel } = bgRaster c := rfl

theorem renderObjs_hideGuides (objs : List FabObj) (acc : Raster) :
    renderObjs (setGuidesVisible false objs) acc =
    renderObjs (objs.filter (fun o => !o.isGuide)) acc := by
  induction objs generalizing acc with
  | nil => rfl
  | cons o os ih =>
    cases ho : o.isGuide
    · have hsv : setGuideVisibility false o = o := by simp [setGuideVisibility, ho]
      simp only [setGuidesVisible, List.map_cons, List.filter_cons, ho, renderObjs,
        List.foldl_cons, hsv, Bool.not_false, if_pos]
      simp only [setGuidesVisible, renderObjs] at ih
      exact ih _
    · have hsv : setGuideVisibility false o = { o with visible := false } := by
        simp [setGuideVisibility, ho]
      simp only [setGuidesVisible, List.map_cons, List.filter_cons, ho, renderObjs,
        List.foldl_cons, hsv, Bool.not_true, if_neg, if_false]
      simp only [setGuidesVisible, renderObjs] at ih
      exact ih _

theorem cleanRaster_guideFree (c : FabCanvas) :
    cleanRaster c = renderObjs (c.objects.filter (fun o => !o.isGuide)) (bgRaster c) := by
  show renderObjs (setGuidesVisible false c.objects) (bgRaster c) = _
  exact renderObjs_hideGuides c.objects (bgRaster c)

theorem cleanRaster_noLayers (c : FabCanvas) (h : hasNoLayers c) :
    cleanRaster c = bgRaster c := by
  rw [cleanRaster_guideFree]
  have : c.objects.filter (fun o => !o.isGuide) = [] := by
    rw [List.filter_eq_nil_iff]
    intro o ho
    simp [h o ho]
  rw [this]
  rfl

theorem cleanRaster_restored (c : FabCanvas) :
    cleanRaster (getCleanCanvasElement c).2 = cleanRaster c := by
  show renderObjs
      (setGuidesVisible false (setGuidesVisible true (setGuidesVisible false c.objects)))
      (bgRaster c)
    = renderObjs (setGuidesVisible false c.objects) (bgRaster c)
  rw [setGuidesVisible_hide_again]

theorem syncFace_skip_head (rs rp : Raster) (old : PartName → FaceName → Option Buffer)
    (f : FaceName) : syncFace rs rp old PartName.head f = old PartName.head f := rfl

theorem syncFace_mapped (rs rp : Raster) (old : PartName → FaceName → Option Buffer)
    (p : PartName) (f : FaceName) (rg : Rect)
    (hsrc : (BODY_PARTS p).textureSource ≠ TextureSource.none)
    (hface : (BODY_PARTS p).faces f = some rg)
    (hbuf : (old p f).isSome = true) :
    syncFace rs rp old p f =
      some (drawFace (sourceRaster rs rp ((BODY_PARTS p).textureSource)) rg) := by
  obtain ⟨b, hb⟩ := Option.isSome_iff_exists.mp hbuf
  rcases h : (BODY_PARTS p).textureSource with _ | _ | _
  · simp only [syncFace, h, hface, hb]
  · simp only [syncFace, h, hface, hb]
  · exact absurd h hsrc

theorem syncFace_idem (rs rp : Raster) (old : PartName → FaceName → Option Buffer) :
    syncFace rs rp (syncFace rs rp old) = syncFace rs rp old := by
  funext p f
  rcases h : (BODY_PARTS p).textureSource with _ | _ | _ <;>
    rcases hface : (BODY_PARTS p).faces f with _ | rg <;>
    rcases hbuf : old p f with _ | b <;>
    simp only [syncFace, h, hface, hbuf]

theorem sourceRaster_sourceCanvas (s : EditorState) (src : TextureSource) :
    sourceRaster (cleanRaster s.shirtCanvas) (cleanRaster s.pantsCanvas) src =
    cleanRaster (sourceCanvas s src) := by
  cases src <;> rfl

theorem fitToZone_ok (c : FabCanvas) (zid : FitZoneId) (i : ℕ) (o : FabObj) (l : Layer)
    (hsel : c.selection = some i) (hget : c.objects.get? i = some o)
    (hpay : o.payload = Payload.image l) :
    fitToZone c zid = Except.ok
      { c with
          objects := c.objects.eraseIdx i ++
            [{ o with payload := Payload.image (fitLayer (FIT_ZONES zid) l) }]
          selection := some (c.objects.eraseIdx i).length } := by
  simp only [fitToZone, hsel, hget, hpay, Except.ok.injEq]
  congr 1
  simp [List.length_append]

theorem switchMode_shirtCanvas (s : EditorState) (next : Channel) :
    (switchMode s next).shirtCanvas = s.shirtCanvas := by
  unfold switchMode
  split <;> rfl

theorem switchMode_pantsCanvas (s : EditorState) (next : Channel) :
    (switchMode s next).pantsCanvas = s.pantsCanvas := by
  unfold switchMode
  split <;> rfl

theorem switchMode_faceBuffers (s : EditorState) (next : Channel) :
    (switchMode s next).faceBuffers = s.faceBuffers := by
  unfold switchMode
  split <;> rfl

/-! ## Claims -/

/-- C5: `switchMode(next)` is a no-op when `next` equals the current
channel; in every case it leaves both canvases' layer data completely
untouched (hence a switch-away-and-back round trip leaves the layers
bit-identical on both channels) and does not touch the face texture
buffers, i.e. triggers no texture synchronization. -/
theorem claim_C5 (s : EditorState) (next : Channel) :
    (next = s.currentMode → switchMode s next = s)
    ∧ (switchMode s next).shirtCanvas = s.shirtCanvas
    ∧ (switchMode s next).pantsCanvas = s.pantsCanvas
    ∧ (switchMode s next).faceBuffers = s.faceBuffers
    ∧ (switchMode (switchMode s Channel.pants) Channel.shirt).shirtCanvas = s.shirtCanvas
    ∧ (switchMode (switchMode s Channel.pants) Channel.shirt).pantsCanvas = s.pantsCanvas := by
  refine ⟨fun h => ?_, switchMode_shirtCanvas s next, switchMode_pantsCanvas s next,
    switchMode_faceBuffers s next, ?_, ?_⟩
  · unfold switchMode
    rw [if_pos h]
  · rw [switchMode_shirtCanvas, switchMode_shirtCanvas]
  · rw [switchMode_pantsCanvas, switchMode_pantsCanvas]

/-- Witness for C5 at the concrete startup state: switching to the already
active shirt channel is a no-op, and a switch to pants keeps the shirt
canvas bit-identical. -/
theorem claim_C5_witness :
    switchMode initStateDemo Channel.shirt = initStateDemo
    ∧ (switchMode initStateDemo Channel.pants).shirtCanvas = initStateDemo.shirtCanvas :=
  ⟨(claim_C5 initStateDemo Channel.shirt).1 rfl,
   (claim_C5 initStateDemo Channel.pants).2.1⟩

/-- C2: for every fit zone and any selected layer, `fitToZone` overwrites
the layer's position to the zone corner and its scale factors to zone size
over natural size — so natural size times scale equals the zone size
exactly — and brings the layer to the top of the z-order; with no
selection it fails with `NoSelectionError` and changes no state (the
operation returns no new canvas). -/
theorem claim_C2 (c : FabCanvas) (zid : FitZoneId) :
    (c.selection = Option.none → fitToZone c zid = Except.error EditErr.noSelection)
    ∧ (∀ i o l, c.selection = some i → c.objects.get? i = some o →
        o.payload = Payload.image l → l.width ≠ 0 → l.height ≠ 0 →
        fitToZone c zid = Except.ok
          { c with
              objects := c.objects.eraseIdx i ++
                [{ o with payload := Payload.image (fitLayer (FIT_ZONES zid) l) }]
              selection := some (c.objects.eraseIdx i).length }
        ∧ (fitLayer (FIT_ZONES zid) l).left = ((FIT_ZONES zid).x : ℚ)
        ∧ (fitLayer (FIT_ZONES zid) l).top = ((FIT_ZONES zid).y : ℚ)
        ∧ (fitLayer (FIT_ZONES zid) l).scaleX = ((FIT_ZONES zid).w : ℚ) / l.width
        ∧ (fitLayer (FIT_ZONES zid) l).scaleY = ((FIT_ZONES zid).h : ℚ) / l.height
        ∧ l.width * (fitLayer (FIT_ZONES zid) l).scaleX = ((FIT_ZONES zid).w : ℚ)
        ∧ l.height * (fitLayer (FIT_ZONES zid) l).scaleY = ((FIT_ZONES zid).h : ℚ)) := by
  constructor
  · intro h
    simp only [fitToZone, h]
  · intro i o l hsel hget hpay hw hh
    refine ⟨fitToZone_ok c zid i o l hsel hget hpay, rfl, rfl, rfl, rfl, ?_, ?_⟩
    · show l.width * (((FIT_ZONES zid).w : ℚ) / l.width) = ((FIT_ZONES zid).w : ℚ)
      rw [mul_div_cancel₀ _ hw]
    · show l.height * (((FIT_ZONES zid).h : ℚ) / l.height) = ((FIT_ZONES zid).h : ℚ)
      rw [mul_div_cancel₀ _ hh]

/-- Witness for C2: the freshly uploaded demo layer (natural size 100x50)
fitted to the front torso zone gets `left = 128`, `top = 128` and scale
factors making its displayed size exactly 128x128. -/
theorem claim_C2_witness :
    demoCanvasWithLayer.selection = some 8
    ∧ (fitLayer (FIT_ZONES FitZoneId.front) demoUploadLayer).left = 128
    ∧ (fitLayer (FIT_ZONES FitZoneId.front) demoUploadLayer).top = 128
    ∧ (100 : ℚ) * (fitLayer (FIT_ZONES FitZoneId.front) demoUploadLayer).scaleX = 128
    ∧ (50 : ℚ) * (fitLayer (FIT_ZONES FitZoneId.front) demoUploadLayer).scaleY = 128 := by
  have h := (claim_C2 demoCanvasWithLayer FitZoneId.front).2 8 demoUploadObj demoUploadLayer
    rfl rfl rfl (by norm_num [demoUploadLayer]) (by norm_num [demoUploadLayer])
  exact ⟨rfl, h.2.1, h.2.2.1, h.2.2.2.2.2.1, h.2.2.2.2.2.2⟩

/-- C6: `deleteSelected()` fails with `NoSelectionError` when nothing is
selected and with `GuardedObjectError` when the selection is a guide — in
both cases returning no new canvas, so the layer count is unchanged —
and otherwise removes exactly the selected object and clears the
selection; deleting the only layer leaves zero layers. -/
theorem claim_C6 (c : FabCanvas) :
    (c.selection = Option.none → deleteSelected c = Except.error EditErr.noSelection)
    ∧ (∀ i o, c.selection = some i → c.objects.get? i = some o → o.isGuide = true →
        deleteSelected c = Except.error EditErr.guardedObject)
    ∧ (∀ i o, c.selection = some i → c.objects.get? i = some o → o.isGuide = false →
        deleteSelected c =
          Except.ok { c with objects := c.objects.eraseIdx i, selection := Option.none }
        ∧ (c.objects.eraseIdx i).length + 1 = c.objects.length)
    ∧ (∀ o, c.objects = [o] → c.selection = some 0 → o.isGuide = false →
        deleteSelected c = Except.ok { c with objects := [], selection := Option.none }) := by
  have del_ok : ∀ i o, c.selection = some i → c.objects.get? i = some o →
      o.isGuide = false →
      deleteSelected c =
        Except.ok { c with objects := c.objects.eraseIdx i, selection := Option.none } := by
    intro i o hsel hget hg
    simp only [deleteSelected, hsel, hget, hg, Bool.false_eq_true, if_false]
  refine ⟨fun h => ?_, fun i o hsel hget hg => ?_, fun i o hsel hget hg => ?_,
    fun o hobjs hsel hg => ?_⟩
  · simp only [deleteSelected, h]
  · simp only [deleteSelected, hsel, hget, hg, if_true]
  · refine ⟨del_ok i o hsel hget hg, ?_⟩
    have hlt : i < c.objects.length := (List.get?_eq_some.mp hget).1
    exact List.length_eraseIdx_add_one hlt
  · have hget : c.objects.get? 0 = some o := by rw [hobjs]; rfl
    rw [del_ok 0 o hsel hget hg, hobjs]
    rfl

/-- Witness for C6: deleting on the freshly initialized shirt canvas
(nothing selected) fails with `NoSelectionError`; deleting the single
uploaded demo layer empties the layer stack down to the guides. -/
theorem claim_C6_witness :
    deleteSelected initStateDemo.shirtCanvas = Except.error EditErr.noSelection
    ∧ deleteSelected demoCanvasWithLayer =
        Except.ok { demoCanvasWithLayer with
          objects := demoCanvasWithLayer.objects.eraseIdx 8
          selection := Option.none } := by
  refine ⟨(claim_C6 initStateDemo.shirtCanvas).1 rfl, ?_⟩
  exact ((claim_C6 demoCanvasWithLayer).2.2.1 8 demoUploadObj rfl rfl rfl).1

/-- C10: every declared face region lies inside the 585x600 source canvas
(so nearest resampling of any of the 128x128 destination pixels reads only
in-bounds source pixels), and the legs declare exactly the arm face
regions, differing only in reading the pants sheet instead of the shirt
sheet. -/
theorem claim_C10 :
    (∀ p f rg, (BODY_PARTS p).faces f = some rg →
        0 < rg.w ∧ 0 < rg.h ∧ rg.x + rg.w ≤ CANVAS_W ∧ rg.y + rg.h ≤ CANVAS_H)
    ∧ (∀ p f rg, (BODY_PARTS p).faces f = some rg → ∀ i j, i < 128 → j < 128 →
        rg.x + i * rg.w / 128 < CANVAS_W ∧ rg.y + j * rg.h / 128 < CANVAS_H)
    ∧ (BODY_PARTS PartName.rightLeg).faces = (BODY_PARTS PartName.rightArm).faces
    ∧ (BODY_PARTS PartName.leftLeg).faces = (BODY_PARTS PartName.leftArm).faces
    ∧ (BODY_PARTS PartName.rightArm).textureSource = TextureSource.shirt
    ∧ (BODY_PARTS PartName.rightLeg).textureSource = TextureSource.pants
    ∧ (BODY_PARTS PartName.leftArm).textureSource = TextureSource.shirt
    ∧ (BODY_PARTS PartName.leftLeg).textureSource = TextureSource.pants := by
  have bounds : ∀ p f rg, (BODY_PARTS p).faces f = some rg →
      0 < rg.w ∧ 0 < rg.h ∧ rg.x + rg.w ≤ CANVAS_W ∧ rg.y + rg.h ≤ CANVAS_H := by
    intro p f rg h
    cases p <;> cases f <;>
      simp only [BODY_PARTS, Option.some.injEq] at h <;>
      first
      | exact Option.noConfusion h
      | (subst h; decide)
  have sample : ∀ (x w W i : ℕ), 0 < w → x + w ≤ W → i < 128 → x + i * w / 128 < W := by
    intro x w W i hw hxw hi
    have hdiv : i * w / 128 < w := by
      rw [Nat.div_lt_iff_lt_mul (by norm_num : 0 < 128)]
      calc i * w < 128 * w := (Nat.mul_lt_mul_right hw).mpr hi
        _ = w * 128 := Nat.mul_comm 128 w
    omega
  refine ⟨bounds, fun p f rg h i j hi hj => ?_, ?_, ?_, rfl, rfl, rfl, rfl⟩
  · obtain ⟨hw, hh, hxw, hyh⟩ := bounds p f rg h
    exact ⟨sample rg.x rg.w CANVAS_W i hw hxw hi, sample rg.y rg.h CANVAS_H j hh hyh hj⟩
  · funext f
    cases f <;> rfl
  · funext f
    cases f <;> rfl

/-- Witness for C10 at the torso front region (128,128,128,128). -/
theorem claim_C10_witness :
    (BODY_PARTS PartName.torso).faces FaceName.front = some (Rect.mk 128 128 128 128)
    ∧ (0 < (128 : ℕ) ∧ 0 < (128 : ℕ) ∧ 128 + 128 ≤ CANVAS_W ∧ 128 + 128 ≤ CANVAS_H) :=
  ⟨rfl, claim_C10.1 PartName.torso FaceName.front (Rect.mk 128 128 128 128) rfl⟩

/-- C4: rasterizing with guides hidden restores the canvas exactly (every
guide's visibility and the selection are back — side-effect-free beyond
the returned raster, in any state where all guides are visible, an
invariant of every reachable state), the returned raster equals the render
of the non-guide objects alone over the background (no guide pixels, for
any guide set and layer configuration), and with zero layers the raster is
the pure background. -/
theorem claim_C4 (c : FabCanvas) (hvis : allGuidesVisible c) :
    (getCleanCanvasElement c).2 = c
    ∧ (getCleanCanvasElement c).1 =
        renderObjs (c.objects.filter (fun o => !o.isGuide)) (bgRaster c)
    ∧ (hasNoLayers c → (getCleanCanvasElement c).1 = bgRaster c) :=
  ⟨getCleanCanvasElement_restore c hvis, cleanRaster_guideFree c,
   fun h => cleanRaster_noLayers c h⟩

/-- Witness for C4 at the concrete startup shirt canvas. -/
theorem claim_C4_witness :
    allGuidesVisible initStateDemo.shirtCanvas
    ∧ (getCleanCanvasElement initStateDemo.shirtCanvas).2 = initStateDemo.shirtCanvas := by
  have h : allGuidesVisible initStateDemo.shirtCanvas := by
    unfold allGuidesVisible
    decide
  exact ⟨h, (claim_C4 initStateDemo.shirtCanvas h).1⟩

/-- C7: `updateAllTextures()` is idempotent given no intervening canvas
mutation — running it twice in a row leaves every face texture buffer with
pixel contents identical to a single run. -/
theorem claim_C7 (s : EditorState) :
    (updateAllTextures (updateAllTextures s)).faceBuffers =
    (updateAllTextures s).faceBuffers := by
  show syncFace (cleanRaster (getCleanCanvasElement s.shirtCanvas).2)
      (cleanRaster (getCleanCanvasElement s.pantsCanvas).2)
      (updateAllTextures s).faceBuffers
    = (updateAllTextures s).faceBuffers
  rw [cleanRaster_restored, cleanRaster_restored]
  show syncFace (cleanRaster s.shirtCanvas) (cleanRaster s.pantsCanvas)
      (syncFace (cleanRaster s.shirtCanvas) (cleanRaster s.pantsCanvas) s.faceBuffers)
    = syncFace (cleanRaster s.shirtCanvas) (cleanRaster s.pantsCanvas) s.faceBuffers
  exact syncFace_idem _ _ _

/-- Witness for C7 at the concrete startup state. -/
theorem claim_C7_witness :
    (updateAllTextures (updateAllTextures initStateDemo)).faceBuffers =
    (updateAllTextures initStateDemo).faceBuffers :=
  claim_C7 initStateDemo

/-- C1: after `updateAllTextures()`, for every body part whose texture
source is not `'none'` and every face with a declared region (and an
allocated buffer), the face's texture equals the white-cleared resample of
the region from the guide-hidden raster of the source canvas chosen by the
texture source; the head (`textureSource: 'none'`, no declared regions) is
skipped and its entries stay `Option.none`, i.e. the skin material; and
end-to-end, adding one layer to the shirt canvas and fitting it to the
`'front'` zone makes the torso front texture the resample of region
(128,128,128,128) of the shirt canvas's guide-hidden raster. -/
theorem claim_C1 (s : EditorState) :
    (∀ p f rg, (BODY_PARTS p).textureSource ≠ TextureSource.none →
        (BODY_PARTS p).faces f = some rg → (s.faceBuffers p f).isSome = true →
        (updateAllTextures s).faceBuffers p f =
          some (drawFace (cleanRaster (sourceCanvas s ((BODY_PARTS p).textureSource))) rg))
    ∧ (BODY_PARTS PartName.head).textureSource = TextureSource.none
    ∧ (∀ f, (BODY_PARTS PartName.head).faces f = Option.none)
    ∧ (∀ f, (updateAllTextures s).faceBuffers PartName.head f = s.faceBuffers PartName.head f)
    ∧ FIT_ZONES FitZoneId.front = Rect.mk 128 128 128 128
    ∧ (BODY_PARTS PartName.torso).faces FaceName.front = some (Rect.mk 128 128 128 128)
    ∧ (∀ img (w h : ℚ), (s.faceBuffers PartName.torso FaceName.front).isSome = true →
        ∃ c', fitToZone (addLayer s.shirtCanvas img w h) FitZoneId.front = Except.ok c'
          ∧ (updateAllTextures { s with shirtCanvas := c' }).faceBuffers
              PartName.torso FaceName.front
            = some (drawFace (cleanRaster c') (Rect.mk 128 128 128 128))) := by
  have main : ∀ (t : EditorState) p f rg,
      (BODY_PARTS p).textureSource ≠ TextureSource.none →
      (BODY_PARTS p).faces f = some rg → (t.faceBuffers p f).isSome = true →
      (updateAllTextures t).faceBuffers p f =
        some (drawFace (cleanRaster (sourceCanvas t ((BODY_PARTS p).textureSource))) rg) := by
    intro t p f rg hsrc hface hbuf
    show syncFace (cleanRaster t.shirtCanvas) (cleanRaster t.pantsCanvas) t.faceBuffers p f = _
    rw [syncFace_mapped _ _ _ p f rg hsrc hface hbuf, sourceRaster_sourceCanvas]
  refine ⟨main s, rfl, fun f => rfl, fun f => rfl, rfl, rfl, ?_⟩
  intro img w h hbuf
  refine ⟨_, fitToZone_ok (addLayer s.shirtCanvas img w h) FitZoneId.front
    s.shirtCanvas.objects.length
    ⟨false, true, Payload.image
      { img := img, width := w, height := h, left := 128, top := 128,
        scaleX := 128 / w, scaleY := 128 / w }⟩
    { img := img, width := w, height := h, left := 128, top := 128,
      scaleX := 128 / w, scaleY := 128 / w }
    rfl (List.get?_concat_length _ _) rfl, ?_⟩
  exact main _ PartName.torso FaceName.front (Rect.mk 128 128 128 128)
    (by decide) rfl hbuf

/-- Witness for C1: the end-to-end scenario at the concrete startup state
with the demo upload. -/
theorem claim_C1_witness :
    (initStateDemo.faceBuffers PartName.torso FaceName.front).isSome = true
    ∧ ∃ c', fitToZone (addLayer initStateDemo.shirtCanvas demoImg 100 50) FitZoneId.front
          = Except.ok c'
        ∧ (updateAllTextures { initStateDemo with shirtCanvas := c' }).faceBuffers
            PartName.torso FaceName.front
          = some (drawFace (cleanRaster c') (Rect.mk 128 128 128 128)) := by
  have h : (initStateDemo.faceBuffers PartName.torso FaceName.front).isSome = true := rfl
  exact ⟨h, (claim_C1 initStateDemo).2.2.2.2.2.2 demoImg 100 50 h⟩

/-- C3 counterexample: the claim says that after synchronization, with
zero layers on both canvases, pants-sourced face textures equal their
initial denim-blue fill. In fact `updateAllTextures` overwrites them with
the resampled pants-canvas raster, whose background is white `#ffffff`:
at the startup state (zero layers, ghost template not yet loaded), after
one synchronization the right leg's front texture holds white, not
denim-blue, at pixel (0,0). -/
theorem claim_C3_cex :
    ((updateAllTextures initStateDemo).faceBuffers PartName.rightLeg FaceName.front).map
        (fun b => b 0 0) = some white
    ∧ white ≠ denimBlue := by
  constructor
  · rfl
  · decide

/-- C3 (amended): at allocation time the face buffers hold the neutral
fills — white for shirt-sourced parts, denim-blue for pants-sourced parts,
skin (no buffer) for the head; after a synchronization with zero layers on
both canvases (white backgrounds, ghost template absent), every mapped
face texture is uniformly white — including the pants-sourced ones — and
head faces still have no buffer, keeping the skin material. -/
theorem claim_C3 (s : EditorState)
    (hsb : s.shirtCanvas.bgColor = white) (hpb : s.pantsCanvas.bgColor = white)
    (hsi : s.shirtCanvas.bgImage = Option.none) (hpi : s.pantsCanvas.bgImage = Option.none)
    (hs : hasNoLayers s.shirtCanvas) (hp : hasNoLayers s.pantsCanvas) :
    (∀ p f rg, (BODY_PARTS p).faces f = some rg →
        (BODY_PARTS p).textureSource = TextureSource.pants →
        ∃ b, initFaceBuffers p f = some b ∧ ∀ i j, b i j = denimBlue)
    ∧ (∀ p f rg, (BODY_PARTS p).faces f = some rg →
        (BODY_PARTS p).textureSource = TextureSource.shirt →
        ∃ b, initFaceBuffers p f = some b ∧ ∀ i j, b i j = white)
    ∧ (∀ f, initFaceBuffers PartName.head f = Option.none)
    ∧ (∀ p f rg, (BODY_PARTS p).faces f = some rg →
        (s.faceBuffers p f).isSome = true →
        ∃ b, (updateAllTextures s).faceBuffers p f = some b ∧ ∀ i j, b i j = white)
    ∧ (∀ f, (updateAllTextures s).faceBuffers PartName.head f =
        s.faceBuffers PartName.head f) := by
  have srcne : ∀ p f rg, (BODY_PARTS p).faces f = some rg →
      (BODY_PARTS p).textureSource ≠ TextureSource.none := by
    intro p f rg h
    cases p <;>
      first
      | decide
      | (cases f <;> simp [BODY_PARTS] at h)
  refine ⟨?_, ?_, fun f => rfl, ?_, fun f => rfl⟩
  · intro p f rg hface hsrc
    refine ⟨fun _ _ =>
      if (BODY_PARTS p).textureSource = TextureSource.pants then denimBlue else white,
      ?_, fun i j => ?_⟩
    · simp only [initFaceBuffers, hface]
    · simp [hsrc]
  · intro p f rg hface hsrc
    refine ⟨fun _ _ =>
      if (BODY_PARTS p).textureSource = TextureSource.pants then denimBlue else white,
      ?_, fun i j => ?_⟩
    · simp only [initFaceBuffers, hface]
    · simp [hsrc]
  · intro p f rg hface hbuf
    have hne := srcne p f rg hface
    refine ⟨drawFace (cleanRaster (sourceCanvas s ((BODY_PARTS p).textureSource))) rg,
      ?_, fun i j => ?_⟩
    · show syncFace (cleanRaster s.shirtCanvas) (cleanRaster s.pantsCanvas)
          s.faceBuffers p f = _
      rw [syncFace_mapped _ _ _ p f rg hne hface hbuf, sourceRaster_sourceCanvas]
    · have hwhite : cleanRaster (sourceCanvas s ((BODY_PARTS p).textureSource)) =
          fun _ _ => white := by
        cases hsrc : (BODY_PARTS p).textureSource
        · show cleanRaster s.shirtCanvas = _
          rw [cleanRaster_noLayers s.shirtCanvas hs]
          funext x y
          simp [bgRaster, hsi, hsb]
        · show cleanRaster s.pantsCanvas = _
          rw [cleanRaster_noLayers s.pantsCanvas hp]
          funext x y
          simp [bgRaster, hpi, hpb]
        · exact absurd hsrc hne
      rw [hwhite]
      show compositeOver (resampleRegion (fun _ _ => white) rg i j) white = white
      rw [show resampleRegion (fun _ _ => white) rg i j = white from rfl]
      exact rfl

/-- Witness for the amended C3 at the concrete startup state: the
pants-sourced right leg front buffer is uniformly white after sync. -/
theorem claim_C3_witness :
    ∃ b, (updateAllTextures initStateDemo).faceBuffers PartName.rightLeg FaceName.front
        = some b ∧ ∀ i j, b i j = white := by
  have hs : hasNoLayers initStateDemo.shirtCanvas := by
    unfold hasNoLayers
    decide
  have hp : hasNoLayers initStateDemo.pantsCanvas := by
    unfold hasNoLayers
    decide
  exact (claim_C3 initStateDemo rfl rfl rfl rfl hs hp).2.2.2.1 PartName.rightLeg
    FaceName.front (Rect.mk 64 388 64 128) rfl rfl

set_option maxRecDepth 8000 in
/-- C8 counterexample: the claim appends `'.png'` whenever the resolved
name does not already end with `'.png'`. The prompt `"Design.PNG"` trims
to itself and does not end with `'.png'` (the check is case-sensitive as
stated), yet the code appends nothing, because its actual test lowercases
the name first: the resolved filename is `"Design.PNG"`, not
`"Design.PNG.png"`. -/
theorem claim_C8_cex :
    jsEndsWith "Design.PNG".toList ".png".toList = false
    ∧ resolveFilename (some "Design.PNG".toList) (defaultDownloadName Channel.shirt)
        = some "Design.PNG".toList
    ∧ some "Design.PNG".toList ≠ some ("Design.PNG".toList ++ ".png".toList) := by
  refine ⟨by decide, by decide, by decide⟩

/-- C8 (amended): filename resolution follows prompt → trim →
default-if-empty → append `'.png'` unless the lowercased name already ends
with `'.png'` (case-insensitive check); a cancelled prompt aborts with no
file produced and, beyond the already-restored rasterization, no other
effect on the editor state. -/
theorem claim_C8 (s : EditorState) (ty : Channel) (raw : List Char)
    (hvs : allGuidesVisible s.shirtCanvas) (hvp : allGuidesVisible s.pantsCanvas) :
    ((downloadTexture s ty Option.none).1 = Option.none
      ∧ (downloadTexture s ty Option.none).2 = s)
    ∧ (jsTrim raw = [] →
        resolveFilename (some raw) (defaultDownloadName ty) =
          some (defaultDownloadName ty ++ ".png".toList))
    ∧ (jsTrim raw ≠ [] → jsEndsWith (jsToLower (jsTrim raw)) ".png".toList = true →
        resolveFilename (some raw) (defaultDownloadName ty) = some (jsTrim raw))
    ∧ (jsTrim raw ≠ [] → jsEndsWith (jsToLower (jsTrim raw)) ".png".toList = false →
        resolveFilename (some raw) (defaultDownloadName ty) =
          some (jsTrim raw ++ ".png".toList))
    ∧ (∀ fn, resolveFilename (some raw) (defaultDownloadName ty) = some fn →
        (downloadTexture s ty (some raw)).1 =
          some (fn, cleanRaster (match ty with
            | Channel.shirt => s.shirtCanvas
            | Channel.pants => s.pantsCanvas))) := by
  have hdft : jsEndsWith (jsToLower (defaultDownloadName ty)) ".png".toList = false := by
    cases ty <;> decide
  refine ⟨⟨?_, ?_⟩, fun h => ?_, fun h1 h2 => ?_, fun h1 h2 => ?_, fun fn hfn => ?_⟩
  · cases ty <;> rfl
  · cases ty
    · show { s with shirtCanvas := (getCleanCanvasElement s.shirtCanvas).2 } = s
      rw [getCleanCanvasElement_restore s.shirtCanvas hvs]
    · show { s with pantsCanvas := (getCleanCanvasElement s.pantsCanvas).2 } = s
      rw [getCleanCanvasElement_restore s.pantsCanvas hvp]
  · simp only [resolveFilename, h, if_pos, hdft, Bool.false_eq_true, if_false,
      Option.some.injEq]
  · simp only [resolveFilename, if_neg h1, h2, if_true]
  · simp only [resolveFilename, if_neg h1, h2, Bool.false_eq_true, if_false]
  · cases ty <;>
      simp only [downloadTexture, hfn] <;>
      rfl

/-- Witness for the amended C8: a cancelled prompt leaves the startup
state untouched, and the padded prompt resolves to its trimmed name with
`'.png'` appended. -/
theorem claim_C8_witness :
    (downloadTexture initStateDemo Channel.shirt Option.none).2 = initStateDemo
    ∧ resolveFilename (some "  My Cool Shirt  ".toList) (defaultDownloadName Channel.shirt)
        = some (jsTrim "  My Cool Shirt  ".toList ++ ".png".toList) := by
  have hvs : allGuidesVisible initStateDemo.shirtCanvas := by
    unfold allGuidesVisible
    decide
  have hvp : allGuidesVisible initStateDemo.pantsCanvas := by
    unfold allGuidesVisible
    decide
  refine ⟨(claim_C8 initStateDemo Channel.shirt "  My Cool Shirt  ".toList hvs hvp).1.2, ?_⟩
  exact (claim_C8 initStateDemo Channel.shirt "  My Cool Shirt  ".toList hvs hvp).2.2.2.1
    (by decide) (by decide)

theorem MULDIV255_self : ∀ x ≤ 255, MULDIV255 x 255 = x := by
  intro x hx
  show (x * 255 + 128 + (x * 255 + 128) / 256) / 256 = x
  omega

theorem MULDIV255_zero (x : ℕ) : MULDIV255 x 0 = 0 := by
  simp [MULDIV255]

theorem blendChannel_opaque (d y9 : ℕ) (hy : y9 ≤ 255) : blendChannel 255 d y9 = y9 := by
  have h1 : (255 : ℕ) - 255 = 0 := by norm_num
  rw [blendChannel, h1, MULDIV255_zero, MULDIV255_self y9 hy, Nat.zero_add]

theorem pasteMask_opaque_point (base im : PImg) (ox oy x y : ℕ)
    (hin : ox ≤ x ∧ x < ox + im.w ∧ oy ≤ y ∧ y < oy + im.h)
    (hb : colorBounded (im.pix (x - ox) (y - oy)))
    (ha : (im.pix (x - ox) (y - oy)).a = 255) :
    (pasteMask base im ox oy).pix x y = im.pix (x - ox) (y - oy) := by
  obtain ⟨hr, hg, hb2, _⟩ := hb
  simp only [pasteMask, if_pos hin]
  rw [ha, blendChannel_opaque _ _ hr, blendChannel_opaque _ _ hg,
    blendChannel_opaque _ _ hb2,
    blendChannel_opaque _ _ (by norm_num : (255 : ℕ) ≤ 255), ← ha]

theorem ratFloorToNat (n : ℕ) : (⌊(n : ℚ)⌋).toNat = n := by
  rw [Int.floor_natCast]
  exact Int.toNat_natCast n

theorem alpha_composite_px_opaque (d s : Color) (ha : s.a = 255) :
    alpha_composite_px d s = s := by
  cases d with
  | mk dr dg db da =>
    cases s with
    | mk sr sg sb sa =>
      have ha' : sa = 255 := ha
      subst ha'
      simp only [alpha_composite_px]
      norm_num
      decide

/-- C9: logo-mode compositing fills the full 585x559 garment canvas with
the flat opaque average color of the 128x128-resized logo, pastes the logo
at the fixed offset (231,74) masked by its own alpha (so fully opaque logo
pixels replace the background and the region outside the footprint is the
flat average color), and the overlay step composites the template on top
with the template taking precedence wherever it is opaque; failure of the
overlay step returns the base image unchanged. The Lanczos `resize` is an
abstract parameter constrained only to produce the declared 128x128
footprint with byte-valued pixels. -/
theorem claim_C9 (resize : PImg → ℕ → ℕ → PImg) (ai : PImg)
    (hw : (resize ai LOGO_SIZE LOGO_SIZE).w = 128)
    (hh : (resize ai LOGO_SIZE LOGO_SIZE).h = 128)
    (hbound : ∀ x y, colorBounded ((resize ai LOGO_SIZE LOGO_SIZE).pix x y)) :
    ((create_logo_mode_image resize ai).w = 585
      ∧ (create_logo_mode_image resize ai).h = 559)
    ∧ (∀ x y, ¬(231 ≤ x ∧ x < 359 ∧ 74 ≤ y ∧ y < 202) →
        (create_logo_mode_image resize ai).pix x y =
          ⟨(get_average_color (resize ai LOGO_SIZE LOGO_SIZE)).1,
           (get_average_color (resize ai LOGO_SIZE LOGO_SIZE)).2.1,
           (get_average_color (resize ai LOGO_SIZE LOGO_SIZE)).2.2, 255⟩)
    ∧ (∀ x y, 231 ≤ x → x < 359 → 74 ≤ y → y < 202 →
        ((resize ai LOGO_SIZE LOGO_SIZE).pix (x - 231) (y - 74)).a = 255 →
        (create_logo_mode_image resize ai).pix x y =
          (resize ai LOGO_SIZE LOGO_SIZE).pix (x - 231) (y - 74))
    ∧ (∀ b, apply_template_overlay resize Option.none b = b)
    ∧ (∀ ov b : PImg, ov.w = ROBLOX_WIDTH → ov.h = ROBLOX_HEIGHT → ∀ x y,
        (ov.pix x y).a = 255 →
        (apply_template_overlay resize (some ov) b).pix x y = ov.pix x y) := by
  refine ⟨⟨rfl, rfl⟩, fun x y hxy => ?_, fun x y hx1 hx2 hy1 hy2 ha => ?_,
    fun b => rfl, fun ov b how hoh x y ha => ?_⟩
  · show (pasteMask
        (imgNew ROBLOX_WIDTH ROBLOX_HEIGHT
          ⟨(get_average_color (resize ai LOGO_SIZE LOGO_SIZE)).1,
           (get_average_color (resize ai LOGO_SIZE LOGO_SIZE)).2.1,
           (get_average_color (resize ai LOGO_SIZE LOGO_SIZE)).2.2, 255⟩)
        (resize ai LOGO_SIZE LOGO_SIZE) LOGO_X LOGO_Y).pix x y = _
    simp only [pasteMask, hw, hh]
    rw [if_neg (by unfold LOGO_X LOGO_Y; omega)]
    rfl
  · show (pasteMask
        (imgNew ROBLOX_WIDTH ROBLOX_HEIGHT
          ⟨(get_average_color (resize ai LOGO_SIZE LOGO_SIZE)).1,
           (get_average_color (resize ai LOGO_SIZE LOGO_SIZE)).2.1,
           (get_average_color (resize ai LOGO_SIZE LOGO_SIZE)).2.2, 255⟩)
        (resize ai LOGO_SIZE LOGO_SIZE) LOGO_X LOGO_Y).pix x y = _
    exact pasteMask_opaque_point _ _ LOGO_X LOGO_Y x y
      (by unfold LOGO_X LOGO_Y; rw [hw, hh]; omega)
      (hbound (x - 231) (y - 74)) ha
  · simp only [apply_template_overlay, if_pos (And.intro how hoh)]
    exact alpha_composite_px_opaque _ _ ha

/-- Witness for C9 with the demonstration resampler: outside the logo
footprint the composited image is the flat average color, and a missing
overlay leaves the base untouched. -/
theorem claim_C9_witness :
    (create_logo_mode_image demoResize demoAi).pix 0 0 =
      ⟨(get_average_color (demoResize demoAi LOGO_SIZE LOGO_SIZE)).1,
       (get_average_color (demoResize demoAi LOGO_SIZE LOGO_SIZE)).2.1,
       (get_average_color (demoResize demoAi LOGO_SIZE LOGO_SIZE)).2.2, 255⟩
    ∧ apply_template_overlay demoResize Option.none demoAi = demoAi := by
  have hb : ∀ x y, colorBounded ((demoResize demoAi LOGO_SIZE LOGO_SIZE).pix x y) := by
    intro x y
    exact (by unfold colorBounded; decide : colorBounded ⟨10, 20, 30, 255⟩)
  have h := claim_C9 demoResize demoAi rfl rfl hb
  exact ⟨h.2.1 0 0 (by omega), h.2.2.2.1 demoAi⟩

end App
